import Mathlib

/-
  Verification development for the AgroSmart precision-irrigation backend.

  Shallow embedding of the three core AWS Lambda handlers:
    * AgroSmart_Scheduler_Logic.py   (schedule evaluator / command issuer)
    * AgroSmart_V5_AckToFirestore.py (acknowledgment normalizer)
    * AgroSmart_V5_SendCommand.py    (manual command endpoint)

  External I/O (DynamoDB queries, Firestore reads/writes, MQTT publishes,
  the weather HTTP call) is modelled by explicit inputs describing what the
  collaborator returns (including the possibility that the call raises), and
  by explicit state records for the Firestore document stores and the list of
  published MQTT messages.  Python floats are modelled as rationals, Python
  ints as Int, and fallible steps return Option or a dedicated result type.
-/

set_option maxHeartbeats 1000000
set_option linter.unusedVariables false

-- ===========================================================================
-- Python string helpers: str.strip() and str.lower()
-- ===========================================================================

def isPySpace (c : Char) : Bool :=
  c = ' ' ∨ c = '\t' ∨ c = '\n' ∨ c = '\r' ∨ c = '\x0b' ∨ c = '\x0c'

def stripChars (l : List Char) : List Char :=
  ((l.dropWhile isPySpace).reverse.dropWhile isPySpace).reverse

-- Python str.strip(): remove leading and trailing whitespace.
def pyStrip (s : String) : String := String.mk (stripChars s.data)

-- Python str.lower() (ASCII case folding, as used by the handlers).
def pyLower (s : String) : String := String.mk (s.data.map Char.toLower)

-- Python int(q) truncation for the non-negative values formatted into
-- history messages (f"{int(v)}%").
def pyInt (q : Rat) : Int := q.floor

-- ===========================================================================
-- hashlib.sha1: faithful byte-level SHA-1, used by build_command_id and by
-- _command_id_from_idempotency_key (hexdigest truncated to 16 characters).
-- ===========================================================================

def w32 (n : Nat) : Nat := n % 4294967296

def rotl32 (x s : Nat) : Nat := w32 (x <<< s) ||| (x >>> (32 - s))

-- UTF-8 encoding of one character (str.encode("utf-8")).
def encodeCharUtf8 (c : Char) : List Nat :=
  let n := c.toNat
  if n < 128 then [n]
  else if n < 2048 then [192 + n / 64, 128 + n % 64]
  else if n < 65536 then [224 + n / 4096, 128 + (n / 64) % 64, 128 + n % 64]
  else [240 + n / 262144, 128 + (n / 4096) % 64, 128 + (n / 64) % 64, 128 + n % 64]

def utf8Bytes (s : String) : List Nat :=
  s.data.foldr (fun c acc => encodeCharUtf8 c ++ acc) []

-- SHA-1 padding: 0x80, zeros to 56 mod 64, then the 64-bit big-endian bit length.
def sha1pad (msg : List Nat) : List Nat :=
  let len := msg.length
  let bitLen := len * 8
  let padZeros := (119 - (len % 64)) % 64
  msg ++ [128] ++ List.replicate padZeros 0 ++
    (List.range 8).map (fun i => (bitLen >>> (8 * (7 - i))) % 256)

def be32 (b0 b1 b2 b3 : Nat) : Nat := ((b0 * 256 + b1) * 256 + b2) * 256 + b3

def chunkWords (chunk : List Nat) : List Nat :=
  (List.range 16).map (fun i =>
    be32 (chunk.getD (4 * i) 0) (chunk.getD (4 * i + 1) 0)
      (chunk.getD (4 * i + 2) 0) (chunk.getD (4 * i + 3) 0))

def extendWords (w : List Nat) : List Nat :=
  (List.range 64).foldl (fun ws _ =>
    let n := ws.length
    ws ++ [rotl32 ((ws.getD (n - 3) 0) ^^^ (ws.getD (n - 8) 0) ^^^
                   (ws.getD (n - 14) 0) ^^^ (ws.getD (n - 16) 0)) 1]) w

def sha1fk (i b c d : Nat) : Nat × Nat :=
  if i < 20 then ((b &&& c) ||| ((b ^^^ 4294967295) &&& d), 1518500249)
  else if i < 40 then (b ^^^ c ^^^ d, 1859775393)
  else if i < 60 then ((b &&& c) ||| (b &&& d) ||| (c &&& d), 2400959708)
  else (b ^^^ c ^^^ d, 3395469782)

def sha1chunk (h : Nat × Nat × Nat × Nat × Nat) (chunk : List Nat) :
    Nat × Nat × Nat × Nat × Nat :=
  let w := extendWords (chunkWords chunk)
  match h with
  | (h0, h1, h2, h3, h4) =>
    let s := (List.range 80).foldl (fun st i =>
        match st with
        | (a, b, c, d, e) =>
          let fk := sha1fk i b c d
          let temp := w32 (rotl32 a 5 + fk.1 + e + fk.2 + w.getD i 0)
          (temp, a, rotl32 b 30, c, d)) (h0, h1, h2, h3, h4)
    match s with
    | (a, b, c, d, e) => (w32 (h0 + a), w32 (h1 + b), w32 (h2 + c), w32 (h3 + d), w32 (h4 + e))

def listChunks (l : List Nat) : List (List Nat) :=
  (List.range (l.length / 64)).map (fun i => (l.drop (64 * i)).take 64)

def hexDigit (n : Nat) : Char :=
  if n < 10 then Char.ofNat (48 + n) else Char.ofNat (87 + n)

def hex8 (n : Nat) : List Char :=
  (List.range 8).map (fun i => hexDigit ((n >>> (4 * (7 - i))) % 16))

def sha1hexdigest (s : String) : String :=
  let padded := sha1pad (utf8Bytes s)
  match (listChunks padded).foldl sha1chunk
      (1732584193, 4023233417, 2562383102, 271733878, 3285377520) with
  | (h0, h1, h2, h3, h4) =>
    String.mk (hex8 h0 ++ hex8 h1 ++ hex8 h2 ++ hex8 h3 ++ hex8 h4)

-- ===========================================================================
-- Scheduler: topics and deterministic command identity
-- (AgroSmart_Scheduler_Logic.py)
-- ===========================================================================

-- IOT_TOPIC_PREFIX environment default "agrosmart/v5".
def iotTopicBase : String := "agrosmart/v5"

def build_device_command_topic (device_id : String) : String :=
  iotTopicBase ++ "/" ++ device_id ++ "/command"

-- build_command_id(schedule_id, now_local):
--   minute_key = now_local.strftime("%Y%m%d%H%M");
--   "sched-" + sha1(f"{schedule_id}:{minute_key}").hexdigest()[:16].
-- The local datetime is represented by its minute key string.
def build_command_id (schedule_id : String) (minute_key : String) : String :=
  "sched-" ++ String.mk ((sha1hexdigest (schedule_id ++ ":" ++ minute_key)).data.take 16)

-- _command_id_from_idempotency_key(device_id, key) from AgroSmart_V5_SendCommand.py.
def command_id_from_idempotency_key (device_id key : String) : String :=
  "man-" ++ String.mk ((sha1hexdigest (device_id ++ ":" ++ key)).data.take 16)

-- ===========================================================================
-- Telemetry gate: get_latest_soil_moisture (AgroSmart_Scheduler_Logic.py)
-- ===========================================================================

-- Raw value of item[DYNAMODB_SORT_KEY]: absent, int()-parseable, or not.
inductive TsRaw
  | missingTs
  | intVal (t : Int)
  | nonInt
deriving DecidableEq, Repr

-- Raw value of item["sensors"]["soil_moisture"]: absent, float()-parseable, or not.
inductive SoilRaw
  | missingSoil
  | numVal (q : Rat)
  | nonNum
deriving DecidableEq, Repr

structure TeleItem where
  ts : TsRaw
  soil : SoilRaw
deriving DecidableEq, Repr

-- Result of table.query(...): the call itself may raise, else returns items
-- newest-first (the code reads at most the head).
inductive TeleQuery
  | qfail
  | qitems (items : List TeleItem)
deriving DecidableEq, Repr

-- get_latest_soil_moisture(device_id, max_age_sec).  Returns None when the
-- query raises, no item exists, sensors.soil_moisture is absent, float()
-- raises (caught by the enclosing except), the timestamp is absent /
-- unparseable / falsy, or the reading is older than max_age_sec.
def get_latest_soil_moisture (q : TeleQuery) (nowTs : Int) (max_age_sec : Int) : Option Rat :=
  match q with
  | .qfail => none
  | .qitems items =>
    match items with
    | [] => none
    | item :: _ =>
      let tsInt : Option Int :=
        match item.ts with
        | .intVal t => some t
        | _ => none
      match item.soil with
      | .missingSoil => none
      | .nonNum => none
      | .numVal val =>
        -- age = (now - ts_int) if ts_int else None  (0 is falsy in Python)
        let age : Option Int :=
          match tsInt with
          | some t => if t ≠ 0 then some (nowTs - t) else none
          | none => none
        match age with
        | none => none
        | some a => if a > max_age_sec then none else some val

-- ===========================================================================
-- Weather gate: check_rain_forecast
-- (current revision in LambdasFuncs/AgroSmart_Scheduler_Logic.py)
-- ===========================================================================

-- One element of data["hourly"]["precipitation_probability"]: JSON null,
-- an int()-parseable value, or junk on which int() raises.
inductive PVal
  | pnull
  | pnum (n : Int)
  | pbad
deriving DecidableEq, Repr

structure WResp where
  probs : List PVal
deriving DecidableEq, Repr

-- The urllib.request.urlopen + json.loads step: raises, or yields a response.
inductive WFetch
  | wfail
  | wok (r : WResp)
deriving DecidableEq, Repr

-- [int(x) for x in probs if x is not None]; an unparseable element makes
-- int() raise (none), which the caller's except turns into fail-open.
def intsOfProbs : List PVal → Option (List Int)
  | [] => some []
  | .pnull :: rest => intsOfProbs rest
  | .pnum n :: rest => (intsOfProbs rest).map (fun l => n :: l)
  | .pbad :: _ => none

def listMaxInt : List Int → Int
  | [] => 0
  | x :: xs => xs.foldl max x

def weatherFailMsg : String := "Falha ao consultar clima (prosseguindo por segurança)"

-- check_rain_forecast(lat, lon): lat/lon only feed the request URL.
def check_rain_forecast (lat lon : Rat) (fetch : WFetch) : Bool × String :=
  match fetch with
  | .wfail => (false, weatherFailMsg)
  | .wok r =>
    if r.probs.isEmpty then (false, "Sem dados de precipitação (prosseguindo)")
    else
      match intsOfProbs r.probs with
      | none => (false, weatherFailMsg)
      | some xs =>
        let vals := if xs.isEmpty then [0] else xs
        let max_prob := listMaxInt vals
        if max_prob ≥ 70 then
          (true, "Alta chance de chuva (max=" ++ toString max_prob ++ "%)")
        else
          (false, "Chance de chuva aceitável (max=" ++ toString max_prob ++ "%)")

-- ===========================================================================
-- Weather gate, legacy revision (backend/lambda/aws_lambda_scheduler)
-- ===========================================================================

structure WRespLegacy where
  probs : List Rat
  amounts : List Rat
deriving DecidableEq, Repr

-- The per-hour loop over range(min(len(probs), FORECAST_WINDOW_HOURS)):
-- amounts[i] may raise IndexError (modelled as none), which the enclosing
-- except turns into fail-open.
def legacyScan (probs amounts : List Rat) (bound : Nat) :
    Option (Bool × Rat × Rat) :=
  (List.range bound).foldl
    (fun acc i =>
      match acc with
      | none => none
      | some (willRain, total, maxProb) =>
        match probs.get? i, amounts.get? i with
        | some prob, some amount =>
          some (willRain ∨ (prob ≥ 50 ∧ amount ≥ 1/2),
                total + amount,
                max maxProb prob)
        | _, _ => none)
    (some (false, 0, 0))

def check_rain_forecast_legacy (lat lon : Rat) (fetch : Option WRespLegacy) :
    Bool × String :=
  -- if not latitude or not longitude: 0.0 is falsy
  if lat = 0 ∨ lon = 0 then (false, "Sem coordenadas GPS")
  else
    match fetch with
    | none => (false, "Erro API Meteorológica")
    | some r =>
      match legacyScan r.probs r.amounts (min r.probs.length 6) with
      | none => (false, "Erro API Meteorológica")
      | some (willRain, total, maxProb) =>
        if willRain ∧ total ≥ 1 then
          (true, "Chuva prevista: " ++ toString total ++ "mm (Max Prob: "
            ++ toString maxProb ++ "%) nas próx 6h")
        else
          (false, "Sem chuva relevante (" ++ toString total ++ "mm)")

-- ===========================================================================
-- Generic keyed document stores (Firestore collections as association lists)
-- ===========================================================================

def lookupList {κ α : Type} [DecidableEq κ] (k : κ) : List (κ × α) → Option α
  | [] => none
  | p :: rest => if p.1 = k then some p.2 else lookupList k rest

-- Firestore document set with merge on a fixed id: replace the first
-- document with that id, else append a new one.
def upsertList {κ α : Type} [DecidableEq κ] (k : κ) (v : α) :
    List (κ × α) → List (κ × α)
  | [] => [(k, v)]
  | p :: rest => if p.1 = k then (k, v) :: rest else p :: upsertList k v rest

def countKey {κ α : Type} [DecidableEq κ] (l : List (κ × α)) (k : κ) : Nat :=
  (l.filter (fun p => decide (p.1 = k))).length

-- ===========================================================================
-- Scheduler Firestore state: commands, history, published MQTT messages
-- ===========================================================================

structure SchedCmdDoc where
  device_id : String
  command_id : String
  origin : String
  status : String
  last_status : String
  requested_action : String
  requested_duration : Int
  action : String
  duration : Int
  schedule_id : String
  schedule_label : String
  local_time : String
  topic : String
  schema_version : Nat
deriving DecidableEq, Repr

structure SchedHist where
  htype : String
  source : String
  message : String
  commandId : Option String
deriving DecidableEq, Repr

structure PubMsg where
  topic : String
  device_id : String
  command_id : String
  action : String
  duration : Int
  origin : String
  schedule_id : String
deriving DecidableEq, Repr

structure SchedState where
  commands : List ((String × String) × SchedCmdDoc)
  history : List ((String × Option String) × SchedHist)
  published : List PubMsg
deriving DecidableEq, Repr

def emptySchedState : SchedState := { commands := [], history := [], published := [] }

-- save_history_log: with a command_id the document id is "log-<command_id>"
-- and the write is set(merge=True) (an upsert); without one, ref.add appends
-- an auto-identified document.
def save_history_log (st : SchedState) (device_id htype source message : String)
    (command_id : Option String) : SchedState :=
  let doc : SchedHist := { htype := htype, source := source, message := message,
                           commandId := command_id }
  match command_id with
  | some cid =>
      { st with history := upsertList (device_id, some ("log-" ++ cid)) doc st.history }
  | none =>
      { st with history := st.history ++ [((device_id, (none : Option String)), doc)] }

-- create_command_document document payload (devices/<dev>/commands/<cid>).
def create_command_doc_data (device_id command_id action : String) (duration_s : Int)
    (origin schedule_id schedule_label now_iso : String) : SchedCmdDoc :=
  { device_id := device_id
    command_id := command_id
    origin := origin
    status := "pending"
    last_status := "pending"
    requested_action := action
    requested_duration := duration_s
    action := action
    duration := duration_s
    schedule_id := schedule_id
    schedule_label := schedule_label
    local_time := now_iso
    topic := build_device_command_topic device_id
    schema_version := 1 }

-- ===========================================================================
-- Scheduler per-schedule evaluation (lambda_handler loop body)
-- ===========================================================================

-- settings.get("target_soil_moisture", 100) fed to float(): absent uses the
-- default, a numeric value parses, junk makes float() raise.
inductive NumRaw
  | missingN
  | numVal (q : Rat)
  | badNum
deriving DecidableEq, Repr

-- float(settings.get(key, default)): none models the raise.
def pyFloatSetting : NumRaw → Rat → Option Rat
  | .missingN, dflt => some dflt
  | .numVal q, _ => some q
  | .badNum, _ => none

structure Device where
  target_soil_moisture : NumRaw
  enable_weather_control : Bool
deriving DecidableEq, Repr

-- device_ref.get(): the Firestore read may raise, find nothing, or return
-- the device document.
inductive DevFetch
  | raisesDev
  | missingDev
  | foundDev (d : Device)
deriving DecidableEq, Repr

-- Everything the environment decides while one matched schedule is
-- processed: the schedule document fields, the device read, the telemetry
-- query, the weather call, and whether each potentially-blocking Firestore /
-- IoT operation raises.
structure SchedEnv where
  schedule_id : String
  label : String
  duration_minutes : Int
  device_id : String
  deviceGet : DevFetch
  lat : Rat := 0
  lon : Rat := 0
  weatherFetch : WFetch := .wfail
  telemetryQuery : TeleQuery := .qfail
  histSkipTeleRaises : Bool := false
  histSkipMoistRaises : Bool := false
  histSkipWeatherRaises : Bool := false
  createRaises : Bool := false
  histDupRaises : Bool := false
  publishRaises : Bool := false
  histExecRaises : Bool := false
  histErrRaises : Bool := false
deriving DecidableEq, Repr

structure SchedCfg where
  nowTs : Int
  now_minute_key : String
  now_iso : String
  telemetry_max_age_sec : Int := 180
deriving DecidableEq, Repr

structure Counters where
  executed : Nat := 0
  skipped : Nat := 0
  duplicates : Nat := 0
  errors : Nat := 0
deriving DecidableEq, Repr

-- Result of processing one schedule: an uncaught exception (carrying the
-- Firestore/MQTT state as already mutated), or normal completion.
inductive StepRes
  | raised (st : SchedState)
  | finished (st : SchedState) (c : Counters)
deriving DecidableEq, Repr

-- The `except Exception` handler at the end of the per-schedule try block:
-- count the error and write an "error" history entry (that write itself can
-- raise, which then escapes the loop).
def sched_error_path (env : SchedEnv) (command_id : String) (st : SchedState)
    (c : Counters) : StepRes :=
  let c' := { c with errors := c.errors + 1 }
  if env.histErrRaises then .raised st
  else .finished
    (save_history_log st env.device_id "error" "system"
      "Falha ao enviar comando: (exceção)" (some command_id)) c'

-- The try block around create_command_document / publish / history
-- (scheduler lambda_handler lines 515-589).
def command_section (cfg : SchedCfg) (env : SchedEnv) (st : SchedState)
    (c : Counters) (command_id : String) (duration_s : Int) : StepRes :=
  match lookupList (env.device_id, command_id) st.commands with
  | some _ =>
      -- cmd_ref.create raised AlreadyExists: count the duplicate, write the
      -- duplicate history note, do NOT publish.
      let c' := { c with duplicates := c.duplicates + 1 }
      if env.histDupRaises then sched_error_path env command_id st c'
      else .finished
        (save_history_log st env.device_id "duplicate" "schedule"
          "Duplicado (retry) no mesmo minuto." (some command_id)) c'
  | none =>
      if env.createRaises then sched_error_path env command_id st c
      else
        let doc := create_command_doc_data env.device_id command_id "on" duration_s
          "schedule" env.schedule_id env.label cfg.now_iso
        let st1 := { st with commands := ((env.device_id, command_id), doc) :: st.commands }
        if env.publishRaises then sched_error_path env command_id st1 c
        else
          let st2 := { st1 with published := st1.published ++
            [{ topic := build_device_command_topic env.device_id
               device_id := env.device_id
               command_id := command_id
               action := "on"
               duration := duration_s
               origin := "schedule"
               schedule_id := env.schedule_id }] }
          if env.histExecRaises then sched_error_path env command_id st2 c
          else .finished
            (save_history_log st2 env.device_id "execution" "schedule"
              ("Executado: " ++ env.label ++ " por " ++ toString (duration_s / 60) ++ " min")
              (some command_id))
            { c with executed := c.executed + 1 }

def teleSkipMsg : String := "Ignorado: Telemetria indisponível/antiga (proteção fail-closed)."

-- One iteration of the scheduler's `for doc in docs_stream` loop.
def process_schedule (cfg : SchedCfg) (st : SchedState) (c : Counters)
    (env : SchedEnv) : StepRes :=
  let duration_s := env.duration_minutes * 60
  match env.deviceGet with
  | .raisesDev => .raised st
  | .missingDev => .finished st { c with errors := c.errors + 1 }
  | .foundDev dev =>
    match pyFloatSetting dev.target_soil_moisture 100 with
    | none => .raised st   -- float(settings[...]) raised outside the try block
    | some target_moisture =>
      match get_latest_soil_moisture env.telemetryQuery cfg.nowTs
          cfg.telemetry_max_age_sec with
      | none =>
          -- fail-closed skip; this history write is outside the try block
          if env.histSkipTeleRaises then .raised st
          else .finished
            (save_history_log st env.device_id "skipped" "schedule" teleSkipMsg none)
            { c with skipped := c.skipped + 1 }
      | some current_moisture =>
        if current_moisture ≥ target_moisture then
          if env.histSkipMoistRaises then .raised st
          else .finished
            (save_history_log st env.device_id "skipped" "schedule"
              ("Ignorado: Solo em " ++ toString (pyInt current_moisture) ++
               "% (Alvo: " ++ toString (pyInt target_moisture) ++ "%)") none)
            { c with skipped := c.skipped + 1 }
        else
          let weatherSkip : Option String :=
            if dev.enable_weather_control then
              let pr := check_rain_forecast env.lat env.lon env.weatherFetch
              if pr.1 then some pr.2 else none
            else none
          match weatherSkip with
          | some reason =>
              if env.histSkipWeatherRaises then .raised st
              else .finished
                (save_history_log st env.device_id "skipped" "weather_ai"
                  ("Cancelado: " ++ reason) none)
                { c with skipped := c.skipped + 1 }
          | none =>
              let command_id := build_command_id env.schedule_id cfg.now_minute_key
              command_section cfg env st c command_id duration_s

-- ===========================================================================
-- Scheduler tick (lambda_handler): fold the matched schedules; an uncaught
-- exception aborts the loop and the outer handler returns HTTP 500.
-- ===========================================================================

inductive TickRes
  | ok200 (st : SchedState) (c : Counters)
  | err500 (st : SchedState)
deriving DecidableEq, Repr

def TickRes.completed : TickRes → Bool
  | .ok200 _ _ => true
  | .err500 _ => false

def scheduler_tick_go (cfg : SchedCfg) : SchedState → Counters → List SchedEnv → TickRes
  | st, c, [] => .ok200 st c
  | st, c, env :: rest =>
    match process_schedule cfg st c env with
    | .raised st' => .err500 st'
    | .finished st' c' => scheduler_tick_go cfg st' c' rest

def scheduler_lambda_handler (cfg : SchedCfg) (st : SchedState)
    (matched : List SchedEnv) : TickRes :=
  scheduler_tick_go cfg st {} matched

-- ===========================================================================
-- Acknowledgment normalizer (AgroSmart_V5_AckToFirestore.py)
-- ===========================================================================

def ALLOWED_STATUSES : List String := ["received", "started", "done", "failed"]

-- _normalize_status: str(raw or "").strip().lower(); "error" is "failed";
-- unrecognized non-empty text maps to "unknown".
def normalize_status (raw : String) : String :=
  let s := pyLower (pyStrip raw)
  if s = "" then ""
  else if s = "error" then "failed"
  else if ALLOWED_STATUSES.contains s then s
  else "unknown"

-- Python truthiness of the error value: None and "" are falsy.
def errTruthy : Option String → Bool
  | none => false
  | some s => s ≠ ""

-- _status_to_result(status, ok_value, error_value).
def status_to_result (status : String) (ok_value : Option Bool)
    (error_value : Option String) : String :=
  let s := pyStrip (pyLower status)
  if errTruthy error_value then "failed"
  else if ok_value = some false then "failed"
  else if s = "done" then "success"
  else if s = "failed" then "failed"
  else "failed"

-- _normalize_action: None stays None; otherwise strip+lower, "" becomes None.
def normalize_action : Option String → Option String
  | none => none
  | some v =>
      let s := pyLower (pyStrip v)
      if s = "" then none else some s

-- A loosely-typed scalar as handed to _normalize_int / int().
inductive PyVal
  | vNone
  | vInt (n : Int)
  | vStrInt (n : Int)
  | vBad
deriving DecidableEq, Repr

-- _normalize_int: None stays None; int() failure becomes None.
def normalize_int : PyVal → Option Int
  | .vNone => none
  | .vInt n => some n
  | .vStrInt n => some n
  | .vBad => none

-- _normalize_reason_logic(reason, status, result, requested_action,
-- requested_duration) -> (final_reason, reason_raw).
def normalize_reason_logic (reason : Option String) (status result : String)
    (requested_action : Option String) (requested_duration : Option Int) :
    Option String × Option String :=
  match reason with
  | none => (none, none)
  | some r =>
    if r = "" then (none, none)   -- `if not reason`
    else
      let r_lower := pyLower (pyStrip r)
      if r_lower = "timeout" ∧ status = "done" ∧ result = "success" ∧
         pyLower (requested_action.getD "") = "on" ∧ (requested_duration.getD 0) > 0
      then (some "duration_elapsed", some r)
      else (some r, none)

-- _build_history_message_simple.
def build_history_message_simple (result : String) (requested_action : Option String)
    (requested_duration : Option Int) (reason : Option String)
    (error_value : Option String) : String :=
  let reason_txt : Option String :=
    match reason with
    | none => none
    | some r =>
      if r = "" then none
      else
        let k := pyLower (pyStrip r)
        some (if k = "timeout" then "timeout de segurança"
              else if k = "duration_elapsed" then "ciclo concluído"
              else if k = "safety_timeout" then "timeout de segurança"
              else if k = "watchdog" then "proteção do sistema"
              else pyStrip r)
  if result = "success" then
    if requested_action = some "on" then
      match requested_duration with
      | some v => if v = 1 then "Irrigação ligada por 1 s"
                  else "Irrigação ligada por " ++ toString v ++ " s"
      | none => "Irrigação ligada"
    else if requested_action = some "off" then "Irrigação desligada"
    else "Comando executado"
  else
    match reason_txt with
    | some t => "Comando interrompido (" ++ t ++ ")"
    | none => "Falha ao executar comando"

-- The inbound ack after _parse_iot_payload, with each field as the handler
-- reads it (str() coercion for ids and status, raw scalars elsewhere).
structure Ack where
  device_id : String := ""
  command_id : String := ""
  status : String := ""
  action : Option String := none
  duration : PyVal := .vNone
  ok : Option Bool := none
  reason : Option String := none
  error : Option String := none
deriving DecidableEq, Repr

-- The stored command document (devices/<dev>/commands/<cid>) as far as the
-- normalizer reads and writes it.  All fields optional: merge-created
-- documents may lack any of them.  The *At Booleans model presence of the
-- corresponding server-timestamp fields; statusTs models the key set of the
-- per-status first-seen timestamp map.
structure StoredCmd where
  status : Option String := none
  lastStatus : Option String := none
  result : Option String := none
  reason : Option String := none
  reasonRaw : Option String := none
  requestedAction : Option String := none
  requestedDuration : Option Int := none
  action : Option String := none
  duration : Option Int := none
  error : Option String := none
  statusTs : List String := []
  finishedAt : Bool := false
  receivedAt : Bool := false
  startedAt : Bool := false
deriving DecidableEq, Repr

-- The update document assembled by lambda_handler before cmd_ref.set(...,
-- merge=True).  Fields left `none` are absent from the update.
structure CmdUpdate where
  status : String
  lastStatus : String
  statusTsKey : String
  result : Option String
  finishedAt : Bool
  receivedAt : Bool
  startedAt : Bool
  reason : Option String
  reasonRaw : Option String
  requestedAction : Option String
  requestedDuration : Option Int
  action : Option String
  duration : Option Int
  error : Option String
deriving DecidableEq, Repr

-- Build the update document (lambda_handler lines 374-451).
def ackUpdateDoc (existing : StoredCmd) (ack : Ack) : CmdUpdate :=
  let status := normalize_status ack.status
  let action := normalize_action ack.action
  let duration := normalize_int ack.duration
  let statusTsKey := if ALLOWED_STATUSES.contains status then status else "unknown"
  let isTerminal := status = "done" ∨ status = "failed"
  let result_calculated :=
    if isTerminal then status_to_result status ack.ok ack.error else "pending"
  -- requested_* for the reason logic: the existing record is authoritative;
  -- at this point update_doc carries no action/duration keys yet, so the
  -- fallback is the inbound (normalized) value.
  let req_action_for_logic : Option String :=
    match existing.requestedAction with
    | some a => some a
    | none => action
  let req_duration_for_logic : Option Int :=
    match existing.requestedDuration with
    | some d => some d
    | none => duration
  let rpair := normalize_reason_logic ack.reason status result_calculated
      (normalize_action req_action_for_logic) req_duration_for_logic
  { status := status
    lastStatus := status
    statusTsKey := statusTsKey
    result := if isTerminal then some result_calculated else none
    finishedAt := isTerminal
    receivedAt := status = "received"
    startedAt := status = "started"
    reason := rpair.1
    reasonRaw := rpair.2
    -- `if error_value is not None` (an empty string is still written)
    error := ack.error
    action := action
    duration := duration
    requestedAction :=
      if (status = "received" ∨ status = "started") ∧ action ≠ none ∧
         existing.requestedAction = none
      then action else none
    requestedDuration :=
      if (status = "received" ∨ status = "started") ∧ duration.getD 0 ≠ 0 ∧
         existing.requestedDuration = none
      then duration else none }

-- cmd_ref.set(update_doc, merge=True): fields present in the update replace
-- the stored ones, absent fields are retained; the status_ts map and the
-- *_at timestamps only ever gain keys.
def mergeCmd (old : StoredCmd) (u : CmdUpdate) : StoredCmd :=
  { status := some u.status
    lastStatus := some u.lastStatus
    result := match u.result with | some r => some r | none => old.result
    reason := match u.reason with | some r => some r | none => old.reason
    reasonRaw := match u.reasonRaw with | some r => some r | none => old.reasonRaw
    requestedAction := match u.requestedAction with
      | some a => some a | none => old.requestedAction
    requestedDuration := match u.requestedDuration with
      | some d => some d | none => old.requestedDuration
    action := match u.action with | some a => some a | none => old.action
    duration := match u.duration with | some d => some d | none => old.duration
    error := match u.error with | some e => some e | none => old.error
    statusTs := if old.statusTs.contains u.statusTsKey then old.statusTs
                else old.statusTs ++ [u.statusTsKey]
    finishedAt := old.finishedAt || u.finishedAt
    receivedAt := old.receivedAt || u.receivedAt
    startedAt := old.startedAt || u.startedAt }

structure AckHistoryDoc where
  htype : String
  source : String
  message : String
  status : String
  result : String
  reason : Option String
  reasonRaw : Option String
  error : Option String
deriving DecidableEq, Repr

structure AckState where
  commands : List ((String × String) × StoredCmd)
  history : List ((String × String) × AckHistoryDoc)
deriving DecidableEq, Repr

def emptyAckState : AckState := { commands := [], history := [] }

inductive AckResp
  | missingFields
  | okPersisted
deriving DecidableEq, Repr

-- lambda_handler (with the Firestore client available, after
-- _parse_iot_payload succeeded).
def lambda_handler_ack (st : AckState) (ack : Ack) : AckState × AckResp :=
  let device_id := pyStrip ack.device_id
  let command_id := pyStrip ack.command_id
  let status := normalize_status ack.status
  if device_id = "" ∨ command_id = "" ∨ status = "" then (st, .missingFields)
  else
    let existing := (lookupList (device_id, command_id) st.commands).getD {}
    let u := ackUpdateDoc existing ack
    let merged := mergeCmd existing u
    let st1 := { st with commands := upsertList (device_id, command_id) merged st.commands }
    if status = "done" ∨ status = "failed" then
      let action := normalize_action ack.action
      let duration := normalize_int ack.duration
      let result_calculated := status_to_result status ack.ok ack.error
      -- final_req_* = existing.get(.., update_doc.get(.., inbound))
      let final_req_action : Option String :=
        match existing.requestedAction with
        | some a => some a
        | none => match u.requestedAction with
                  | some a => some a
                  | none => action
      let final_req_duration : Option Int :=
        match existing.requestedDuration with
        | some d => some d
        | none => match u.requestedDuration with
                  | some d => some d
                  | none => duration
      let message := build_history_message_simple result_calculated
        (normalize_action final_req_action) final_req_duration u.reason ack.error
      let hdoc : AckHistoryDoc :=
        { htype := "command_execution"
          source := "command"
          message := message
          status := status
          result := result_calculated
          reason := u.reason
          reasonRaw := u.reasonRaw
          error := ack.error }
      let hist2 := upsertList (device_id, "cmd-" ++ command_id) hdoc st1.history
      let st2 := { st1 with history := hist2 }
      (st2, .okPersisted)
    else (st1, .okPersisted)

-- ===========================================================================
-- Manual command endpoint (AgroSmart_V5_SendCommand.py)
-- ===========================================================================

def MAX_DURATION_SECONDS : Int := 900

def REQUIRE_AUTH : Bool := true

def ENFORCE_DEVICE_OWNERSHIP : Bool := true

-- DEVICE_ID_RE = ^[A-Za-z0-9:_-]{1,80}$ ; COMMAND_ID_RE same with {1,120}.
def idCharOk (c : Char) : Bool :=
  c.isAlpha ∨ c.isDigit ∨ c = ':' ∨ c = '_' ∨ c = '-'

def deviceIdMatches (s : String) : Bool :=
  s.data.all idCharOk ∧ 1 ≤ s.data.length ∧ s.data.length ≤ 80

def commandIdMatches (s : String) : Bool :=
  s.data.all idCharOk ∧ 1 ≤ s.data.length ∧ s.data.length ≤ 120

-- The raw body value handed to parse_int.
inductive PyIntRaw
  | pyAbsent          -- body.get("duration", 0) returned the default 0
  | pyNoneVal
  | pyBoolVal
  | pyNumVal (n : Int)  -- int or float; int(v)
  | pyStrEmpty
  | pyStrNum (n : Int)  -- int(float(v)) succeeded
  | pyStrBad
deriving DecidableEq, Repr

-- parse_int(value, default=0); errors carry the ValueError message.
def parse_int (v : PyIntRaw) (dflt : Int) : Except String Int :=
  match v with
  | .pyAbsent => .ok 0   -- body.get("duration", 0) -> parse_int(0) = 0
  | .pyNoneVal => .ok dflt
  | .pyBoolVal => .error "Valor inválido (bool não permitido para inteiros)"
  | .pyNumVal n => .ok n
  | .pyStrEmpty => .ok dflt
  | .pyStrNum n => .ok n
  | .pyStrBad => .error "Valor inválido para número inteiro"

structure SCBody where
  device_id : Option String := none
  action : Option String := none
  duration : PyIntRaw := .pyAbsent
  origin : Option String := none   -- none models a non-string / absent origin
  command_id : Option String := none
deriving DecidableEq, Repr

structure SCPayload where
  device_id : String
  action : String
  duration : Int
  origin : String
  command_id : String
  user_id : Option String
deriving DecidableEq, Repr

-- validate_and_build_command(body, event).  idempotency_key comes from the
-- headers, user_id from the authorizer context, fresh_uuid models
-- str(uuid.uuid4()) for the no-key path.
def validate_and_build_command (body : SCBody) (idempotency_key : Option String)
    (user_id : Option String) (fresh_uuid : String) : Except String SCPayload :=
  match body.device_id with
  | none => .error "device_id é obrigatório"
  | some d0 =>
    if pyStrip d0 = "" then .error "device_id é obrigatório"
    else
      let device_id := pyStrip d0
      if ¬ deviceIdMatches device_id then
        .error "device_id inválido (use apenas letras, números, '-', '_', ':')"
      else
        match body.action with
        | none => .error "action é obrigatório"
        | some a0 =>
          if pyStrip a0 = "" then .error "action é obrigatório"
          else
            let action := pyLower (pyStrip a0)
            if ¬ (action = "on" ∨ action = "off") then
              .error "action inválido. Permitidos: ['off', 'on']"
            else
              match parse_int body.duration 0 with
              | .error e => .error e
              | .ok duration0 =>
                if duration0 < 0 then .error "duration não pode ser negativo"
                else if duration0 > MAX_DURATION_SECONDS then
                  .error "duration acima do máximo permitido (900s)"
                else
                  let duration := if action = "off" then 0 else duration0
                  let origin0 := match body.origin with
                    | some o => o
                    | none => "manual"
                  let origin1 := if pyStrip origin0 = "" then "manual" else pyStrip origin0
                  let origin := String.mk (origin1.data.take 30)
                  let command_id :=
                    match body.command_id with
                    | some c => if pyStrip c ≠ "" then pyStrip c else
                        (match idempotency_key with
                         | some k => if pyStrip k ≠ "" then
                             command_id_from_idempotency_key device_id (pyStrip k)
                           else fresh_uuid
                         | none => fresh_uuid)
                    | none =>
                        match idempotency_key with
                        | some k => if pyStrip k ≠ "" then
                            command_id_from_idempotency_key device_id (pyStrip k)
                          else fresh_uuid
                        | none => fresh_uuid
                  if ¬ commandIdMatches command_id then
                    .error "command_id inválido (caracteres proibidos)"
                  else
                    .ok { device_id := device_id
                          action := action
                          duration := duration
                          origin := origin
                          command_id := command_id
                          user_id := user_id }

structure ManCmdDoc where
  device_id : String := ""
  command_id : String := ""
  origin : String := ""
  requested_action : String := ""
  requested_duration : Int := 0
  action : String := ""
  duration : Int := 0
  status : String := ""
  last_status : String := ""
  requested_by : Option String := none
  topic : String := ""
deriving DecidableEq, Repr

structure SCState where
  commands : List ((String × String) × ManCmdDoc)
  published : List SCPayload
deriving DecidableEq, Repr

def emptySCState : SCState := { commands := [], published := [] }

-- _firestore_create_or_get_command: atomic create-if-absent; on
-- AlreadyExists, read back the existing record's status (str(.. or
-- "").strip().lower()).  Returns (state, created_new, existing_status).
def firestore_create_or_get_command (st : SCState) (p : SCPayload) :
    SCState × Bool × Option String :=
  match lookupList (p.device_id, p.command_id) st.commands with
  | some data =>
      (st, false, some (pyLower (pyStrip data.status)))
  | none =>
      let doc : ManCmdDoc :=
        { device_id := p.device_id
          command_id := p.command_id
          origin := p.origin
          requested_action := p.action
          requested_duration := p.duration
          action := p.action
          duration := p.duration
          status := "pending"
          last_status := "pending"
          requested_by := p.user_id
          topic := build_device_command_topic p.device_id }
      ({ st with commands := ((p.device_id, p.command_id), doc) :: st.commands },
       true, none)

-- _firestore_mark_publish_failed: set(merge) of status="publish_failed".
def firestore_mark_publish_failed (st : SCState) (device_id command_id : String) :
    SCState :=
  match lookupList (device_id, command_id) st.commands with
  | some data =>
      let doc := { data with status := "publish_failed" }
      { st with commands := upsertList (device_id, command_id) doc st.commands }
  | none =>
      let doc : ManCmdDoc := { device_id := device_id, command_id := command_id,
                               status := "publish_failed" }
      { st with commands := ((device_id, command_id), doc) :: st.commands }

structure SCEnv where
  ownershipOk : Bool      -- _firestore_check_device_owner (fail-closed collaborator)
  publishRaises : Bool := false
  fresh_uuid : String := "uuid-fresh"
deriving DecidableEq, Repr

structure SCResp where
  statusCode : Nat
  message : String
deriving DecidableEq, Repr

def idempotentMsg : String := "Comando já existente (idempotent). Não foi republicado."

-- lambda_handler (POST path, body already JSON-parsed into SCBody).
def send_command_lambda_handler (st : SCState) (env : SCEnv) (body : SCBody)
    (idempotency_key : Option String) (user_id : Option String) :
    SCState × SCResp :=
  match validate_and_build_command body idempotency_key user_id env.fresh_uuid with
  | .error m => (st, { statusCode := 400, message := m })
  | .ok payload =>
    if REQUIRE_AUTH ∧ payload.user_id = none then
      (st, { statusCode := 401, message := "Unauthorized" })
    else if ENFORCE_DEVICE_OWNERSHIP ∧ payload.user_id = none then
      (st, { statusCode := 401, message := "Unauthorized" })
    else if ENFORCE_DEVICE_OWNERSHIP ∧ payload.user_id ≠ none ∧ ¬ env.ownershipOk then
      (st, { statusCode := 403, message := "Forbidden" })
    else
      match firestore_create_or_get_command st payload with
      | (st1, created_new, existing_status) =>
        if created_new = false ∧ pyLower (existing_status.getD "") ≠ "publish_failed" then
          (st1, { statusCode := 200, message := idempotentMsg })
        else
          if env.publishRaises then
            (firestore_mark_publish_failed st1 payload.device_id payload.command_id,
             { statusCode := 500, message := "Erro interno na Lambda" })
          else
            ({ st1 with published := st1.published ++ [payload] },
             { statusCode := 200, message := "Comando enviado com sucesso" })
-- ===========================================================================
-- Helper lemmas about the keyed stores
-- ===========================================================================

theorem lookupList_upsert_self {κ α : Type} [DecidableEq κ] (k : κ) (v : α)
    (l : List (κ × α)) : lookupList k (upsertList k v l) = some v := by
  induction l with
  | nil => simp [upsertList, lookupList]
  | cons p rest ih =>
      by_cases h : p.1 = k
      · simp [upsertList, h, lookupList]
      · simp [upsertList, h, lookupList, ih]

theorem countKey_cons {κ α : Type} [DecidableEq κ] (p : κ × α) (l : List (κ × α))
    (k : κ) : countKey (p :: l) k = (if p.1 = k then 1 else 0) + countKey l k := by
  by_cases h : p.1 = k <;> simp [countKey, List.filter_cons, h, Nat.add_comm]

theorem countKey_upsert {κ α : Type} [DecidableEq κ] (l : List (κ × α)) (k : κ)
    (v : α) (h : countKey l k ≤ 1) : countKey (upsertList k v l) k = 1 := by
  induction l with
  | nil => simp [upsertList, countKey, List.filter]
  | cons p rest ih =>
      by_cases hp : p.1 = k
      · have := countKey_cons p rest k
        rw [if_pos hp] at this
        rw [this] at h
        have hz : countKey rest k = 0 := by omega
        rw [upsertList, if_pos hp, countKey_cons, if_pos rfl, hz]
      · have := countKey_cons p rest k
        rw [if_neg hp] at this
        rw [this] at h
        rw [upsertList, if_neg hp, countKey_cons, if_neg hp, ih (by omega)]


/-- Claim C3: the Acknowledgment Normalizer's computed result is "failed" whenever
an explicit (truthy) error value is present, or the device reported ok=false, or
the canonical status is "failed"; it is "success" exactly when the canonical
status is "done" and no error signal is present; in every other case it is
"failed"; and the handler computes the result and writes it together with
finished_at exactly when the canonical status is "done" or "failed". -/
theorem C3_ack_result_computation :
    (∀ (status : String) (ok : Option Bool) (err : Option String),
       errTruthy err = true → status_to_result status ok err = "failed") ∧
    (∀ (status : String) (err : Option String),
       status_to_result status (some false) err = "failed") ∧
    (∀ (ok : Option Bool) (err : Option String),
       status_to_result "failed" ok err = "failed") ∧
    (∀ (status : String) (ok : Option Bool) (err : Option String),
       status_to_result status ok err = "success" ↔
         (pyStrip (pyLower status) = "done" ∧ errTruthy err = false ∧ ok ≠ some false)) ∧
    (∀ (status : String) (ok : Option Bool) (err : Option String),
       status_to_result status ok err = "success" ∨
       status_to_result status ok err = "failed") ∧
    (∀ (existing : StoredCmd) (ack : Ack),
       (((ackUpdateDoc existing ack).result ≠ none ∧
         (ackUpdateDoc existing ack).finishedAt = true) ↔
         (normalize_status ack.status = "done" ∨ normalize_status ack.status = "failed")) ∧
       ((normalize_status ack.status = "done" ∨ normalize_status ack.status = "failed") →
         (ackUpdateDoc existing ack).result =
           some (status_to_result (normalize_status ack.status) ack.ok ack.error))) := by
  refine ⟨?_, ?_, ?_, ?_, ?_, ?_⟩
  · intro status ok err h
    unfold status_to_result
    simp [h]
  · intro status err
    unfold status_to_result
    split_ifs <;> simp_all
  · intro ok err
    unfold status_to_result
    split_ifs <;> rfl
  · intro status ok err
    unfold status_to_result
    split_ifs <;> simp_all
  · intro status ok err
    unfold status_to_result
    split_ifs <;> (try simp) <;> (try tauto)
  · intro existing ack
    constructor
    · by_cases h : normalize_status ack.status = "done" ∨ normalize_status ack.status = "failed" <;>
        simp [ackUpdateDoc, h]
    · intro h
      simp [ackUpdateDoc, h]

def c4OnExisting : StoredCmd := { requestedAction := some "on", requestedDuration := some 120 }

def c4OffExisting : StoredCmd := { requestedAction := some "off", requestedDuration := some 120 }

def c4Report : Ack := { device_id := "dev1", command_id := "c1", status := "done",
                        ok := some true, reason := some "timeout" }

/-- Claim C4: a device-reported reason "timeout" is rewritten to
"duration_elapsed" (with the original raw reason preserved in reason_raw) if and
only if the canonical status is "done", the computed result is "success", the
requested action is "on" and the requested duration is positive; any other
combination (e.g. requested_action "off", as in the spec's example) passes the
reason through unchanged with no reason_raw. -/
theorem C4_reason_timeout_rewrite :
    (∀ (r status result : String) (act : Option String) (dur : Option Int),
       r ≠ "" →
       normalize_reason_logic (some r) status result act dur =
         (if pyLower (pyStrip r) = "timeout" ∧ status = "done" ∧ result = "success" ∧
             pyLower (act.getD "") = "on" ∧ (dur.getD 0) > 0
          then (some "duration_elapsed", some r)
          else (some r, none))) ∧
    ((ackUpdateDoc c4OnExisting c4Report).reason = some "duration_elapsed" ∧
     (ackUpdateDoc c4OnExisting c4Report).reasonRaw = some "timeout") ∧
    ((ackUpdateDoc c4OffExisting c4Report).reason = some "timeout" ∧
     (ackUpdateDoc c4OffExisting c4Report).reasonRaw = none) := by
  refine ⟨?_, by decide, by decide⟩
  intro r status result act dur hr
  simp only [normalize_reason_logic]
  rw [if_neg hr]

/-- Claim C8: for every (latitude, longitude), whenever the external forecast
call fails for any network or parse reason, the Weather Gate (both the current
check_rain_forecast and the legacy revision) returns proceed (skip = false)
together with a non-empty human-readable reason string: it never blocks
irrigation on missing forecast data. -/
theorem C8_weather_fail_open :
    (∀ (lat lon : Rat), check_rain_forecast lat lon .wfail = (false, weatherFailMsg)) ∧
    (∀ (lat lon : Rat) (r : WResp), intsOfProbs r.probs = none →
       check_rain_forecast lat lon (.wok r) = (false, weatherFailMsg)) ∧
    (weatherFailMsg ≠ "") ∧
    (∀ (lat lon : Rat), lat ≠ 0 → lon ≠ 0 →
       check_rain_forecast_legacy lat lon none = (false, "Erro API Meteorológica")) := by
  refine ⟨fun lat lon => rfl, ?_, by decide, ?_⟩
  · intro lat lon r h
    match hr : r.probs with
    | [] => rw [hr] at h; cases h
    | p :: rest =>
        rw [hr] at h
        simp [check_rain_forecast, hr, h]
  · intro lat lon hlat hlon
    unfold check_rain_forecast_legacy
    rw [if_neg (by tauto)]

-- Helper: a terminal, validated report upserts exactly one history document
-- keyed by the command identifier.
theorem ack_terminal_history_upsert (st : AckState) (ack : Ack)
    (hd : ¬ pyStrip ack.device_id = "") (hc : ¬ pyStrip ack.command_id = "")
    (hterm : normalize_status ack.status = "done" ∨ normalize_status ack.status = "failed") :
    ∃ d, (lambda_handler_ack st ack).1.history =
      upsertList (pyStrip ack.device_id, "cmd-" ++ pyStrip ack.command_id) d st.history ∧
      (lambda_handler_ack st ack).2 = .okPersisted := by
  have hs : ¬ normalize_status ack.status = "" := by
    rcases hterm with h | h <;> rw [h] <;> decide
  simp only [lambda_handler_ack]
  rw [if_neg (by push_neg; exact ⟨hd, hc, hs⟩)]
  rw [if_pos hterm]
  exact ⟨_, rfl, rfl⟩

/-- Claim C5: feeding the same terminal report (canonical status "done" or
"failed") to the Acknowledgment Normalizer twice yields exactly one
HistoryEntry for that command: the history document is keyed by the command
identifier and upserted with merge, so repeated terminal reports converge to a
single entry. -/
theorem C5_ack_history_idempotent (st : AckState) (ack : Ack)
    (hd : ¬ pyStrip ack.device_id = "") (hc : ¬ pyStrip ack.command_id = "")
    (hterm : normalize_status ack.status = "done" ∨ normalize_status ack.status = "failed")
    (hcnt : countKey st.history (pyStrip ack.device_id, "cmd-" ++ pyStrip ack.command_id) ≤ 1) :
    countKey ((lambda_handler_ack (lambda_handler_ack st ack).1 ack).1).history
      (pyStrip ack.device_id, "cmd-" ++ pyStrip ack.command_id) = 1 := by
  obtain ⟨d1, h1, -⟩ := ack_terminal_history_upsert st ack hd hc hterm
  obtain ⟨d2, h2, -⟩ := ack_terminal_history_upsert (lambda_handler_ack st ack).1 ack hd hc hterm
  rw [h2, h1]
  exact countKey_upsert _ _ _ (by rw [countKey_upsert _ _ _ hcnt])

def c6Started : Ack := { device_id := "dev1", command_id := "cmd1", status := "started",
                         action := some "on", duration := .vInt 120 }

def c6Done : Ack := { device_id := "dev1", command_id := "cmd1", status := "done",
                      ok := some true }

def c6State : AckState :=
  (lambda_handler_ack
    (lambda_handler_ack (lambda_handler_ack emptyAckState c6Started).1 c6Done).1
    c6Started).1

def c6Doc : StoredCmd := (lookupList ("dev1", "cmd1") c6State.commands).getD {}

/-- Claim C6 counterexample: after processing reports in the order "started",
"done", then a late duplicate "started", the record's last-known status field
is "started", not "done" - the unconditional status update in the ack handler
lets a late "started" regress the last-known status, refuting the claim as
stated. -/
theorem C6_counterexample :
    c6Doc.lastStatus = some "started" ∧ c6Doc.lastStatus ≠ some "done" := by
  constructor
  · decide
  · decide

/-- Claim C6 (amended): after "started", "done", then a late duplicate
"started", the record's last-known status field equals "started" (the latest
report seen, per the unconditional update rule), while the per-status
first-seen timestamp map retains the observed "done" transition and the
terminal result "success" remains on the record. -/
theorem C6_amended_late_started_updates_last_status :
    c6Doc.lastStatus = some "started" ∧
    c6Doc.status = some "started" ∧
    c6Doc.statusTs = ["started", "done"] ∧
    c6Doc.result = some "success" ∧
    c6Doc.finishedAt = true := by
  refine ⟨by decide, by decide, by decide, by decide, by decide⟩

/-- Claim C2: the telemetry read returns unavailable (None) when the latest
telemetry row is absent, lacks the nested soil-moisture field, has a
non-numeric value, or is older than the configured maximum age; and on an
unavailable reading the Schedule Evaluator skips the schedule with a "skipped"
history entry and never issues a command (commands and published messages
unchanged), regardless of the moisture value reported. -/
theorem C2_telemetry_fail_closed :
    (∀ (nowTs maxAge : Int), get_latest_soil_moisture .qfail nowTs maxAge = none) ∧
    (∀ (nowTs maxAge : Int), get_latest_soil_moisture (.qitems []) nowTs maxAge = none) ∧
    (∀ (nowTs maxAge : Int) (ts : TsRaw) (rest : List TeleItem),
       get_latest_soil_moisture (.qitems ({ ts := ts, soil := .missingSoil } :: rest))
         nowTs maxAge = none) ∧
    (∀ (nowTs maxAge : Int) (ts : TsRaw) (rest : List TeleItem),
       get_latest_soil_moisture (.qitems ({ ts := ts, soil := .nonNum } :: rest))
         nowTs maxAge = none) ∧
    (∀ (nowTs maxAge : Int) (t : Int) (q : Rat) (rest : List TeleItem),
       nowTs - t > maxAge →
       get_latest_soil_moisture (.qitems ({ ts := .intVal t, soil := .numVal q } :: rest))
         nowTs maxAge = none) ∧
    (∀ (cfg : SchedCfg) (st : SchedState) (c : Counters) (env : SchedEnv)
       (dev : Device) (target : Rat),
       env.deviceGet = .foundDev dev →
       pyFloatSetting dev.target_soil_moisture 100 = some target →
       env.histSkipTeleRaises = false →
       get_latest_soil_moisture env.telemetryQuery cfg.nowTs cfg.telemetry_max_age_sec = none →
       process_schedule cfg st c env =
         .finished
           { st with history := st.history ++
               [((env.device_id, (none : Option String)),
                 { htype := "skipped", source := "schedule",
                   message := teleSkipMsg, commandId := none })] }
           { c with skipped := c.skipped + 1 }) := by
  refine ⟨fun _ _ => rfl, fun _ _ => rfl, fun _ _ _ _ => rfl, fun _ _ _ _ => rfl, ?_, ?_⟩
  · intro nowTs maxAge t q rest h
    by_cases ht : t = 0
    · simp [get_latest_soil_moisture, ht]
    · simp [get_latest_soil_moisture, ht, if_pos h]
  · intro cfg st c env dev target hdev htgt hflag htel
    simp only [process_schedule, hdev, htgt, htel, hflag]
    simp [save_history_log]

def StepRes.stOf : StepRes → SchedState
  | .raised st => st
  | .finished st _ => st

theorem save_history_log_commands (st : SchedState) (d t s m : String)
    (cid : Option String) : (save_history_log st d t s m cid).commands = st.commands := by
  cases cid <;> rfl

theorem save_history_log_published (st : SchedState) (d t s m : String)
    (cid : Option String) : (save_history_log st d t s m cid).published = st.published := by
  cases cid <;> rfl

def StepRes.cOf : StepRes → Counters
  | .raised _ => {}
  | .finished _ c => c

def StepRes.isFinished : StepRes → Bool
  | .raised _ => false
  | .finished _ _ => true

/-- Claim C1: a second attempt to create the command record with the same
(device identifier, command identifier) - re-running the same schedule in the
same minute - leaves exactly one stored record with the original creation
fields unchanged, increments the duplicate counter, records a "duplicate"
history note under the command's history key, and does not publish a second
downlink message. -/
theorem C1_create_once_dedup
    (cfg : SchedCfg) (st : SchedState) (c : Counters) (env : SchedEnv) (dev : Device)
    (target m : Rat) (cid : String)
    (hcid : cid = build_command_id env.schedule_id cfg.now_minute_key)
    (hdev : env.deviceGet = .foundDev dev)
    (htgt : pyFloatSetting dev.target_soil_moisture 100 = some target)
    (htel : get_latest_soil_moisture env.telemetryQuery cfg.nowTs
              cfg.telemetry_max_age_sec = some m)
    (hm : ¬ m ≥ target)
    (hw : dev.enable_weather_control = true →
          (check_rain_forecast env.lat env.lon env.weatherFetch).1 = false)
    (habs : lookupList (env.device_id, cid) st.commands = none)
    (hcnt : countKey st.commands (env.device_id, cid) = 0)
    (h1 : env.createRaises = false) (h2 : env.publishRaises = false)
    (h3 : env.histExecRaises = false) (h4 : env.histDupRaises = false) :
    (process_schedule cfg st c env).isFinished = true ∧
    (process_schedule cfg st c env).cOf.executed = c.executed + 1 ∧
    (process_schedule cfg st c env).cOf.duplicates = c.duplicates ∧
    countKey (process_schedule cfg st c env).stOf.commands (env.device_id, cid) = 1 ∧
    lookupList (env.device_id, cid) (process_schedule cfg st c env).stOf.commands =
      some (create_command_doc_data env.device_id cid "on" (env.duration_minutes * 60)
        "schedule" env.schedule_id env.label cfg.now_iso) ∧
    (process_schedule cfg st c env).stOf.published.length = st.published.length + 1 ∧
    (process_schedule cfg (process_schedule cfg st c env).stOf
        (process_schedule cfg st c env).cOf env).isFinished = true ∧
    (process_schedule cfg (process_schedule cfg st c env).stOf
        (process_schedule cfg st c env).cOf env).cOf.duplicates =
      (process_schedule cfg st c env).cOf.duplicates + 1 ∧
    (process_schedule cfg (process_schedule cfg st c env).stOf
        (process_schedule cfg st c env).cOf env).cOf.executed =
      (process_schedule cfg st c env).cOf.executed ∧
    (process_schedule cfg (process_schedule cfg st c env).stOf
        (process_schedule cfg st c env).cOf env).stOf.commands =
      (process_schedule cfg st c env).stOf.commands ∧
    (process_schedule cfg (process_schedule cfg st c env).stOf
        (process_schedule cfg st c env).cOf env).stOf.published =
      (process_schedule cfg st c env).stOf.published ∧
    lookupList (env.device_id, some ("log-" ++ cid))
      (process_schedule cfg (process_schedule cfg st c env).stOf
        (process_schedule cfg st c env).cOf env).stOf.history =
      some { htype := "duplicate", source := "schedule",
             message := "Duplicado (retry) no mesmo minuto.",
             commandId := some cid } := by
  subst hcid
  have hws : (if dev.enable_weather_control then
      (let pr := check_rain_forecast env.lat env.lon env.weatherFetch;
       if pr.1 then some pr.2 else none) else none) = (none : Option String) := by
    by_cases hew : dev.enable_weather_control
    · simp [hew, hw hew]
    · simp [hew]
  have e1 : process_schedule cfg st c env =
      command_section cfg env st c (build_command_id env.schedule_id cfg.now_minute_key)
        (env.duration_minutes * 60) := by
    simp only [process_schedule, hdev, htgt, htel]
    rw [if_neg hm, hws]
  have e1' : process_schedule cfg st c env = .finished
      (save_history_log
        { st with
          commands := ((env.device_id, build_command_id env.schedule_id cfg.now_minute_key),
            create_command_doc_data env.device_id
              (build_command_id env.schedule_id cfg.now_minute_key) "on"
              (env.duration_minutes * 60) "schedule" env.schedule_id env.label cfg.now_iso)
            :: st.commands
          published := st.published ++
            [{ topic := build_device_command_topic env.device_id
               device_id := env.device_id
               command_id := build_command_id env.schedule_id cfg.now_minute_key
               action := "on"
               duration := env.duration_minutes * 60
               origin := "schedule"
               schedule_id := env.schedule_id }] }
        env.device_id "execution" "schedule"
        ("Executado: " ++ env.label ++ " por " ++ toString (env.duration_minutes * 60 / 60) ++ " min")
        (some (build_command_id env.schedule_id cfg.now_minute_key)))
      { c with executed := c.executed + 1 } := by
    rw [e1]
    simp only [command_section, habs, h1, h2, h3]
    rfl
  set cid := build_command_id env.schedule_id cfg.now_minute_key with hc
  set doc := create_command_doc_data env.device_id cid "on" (env.duration_minutes * 60)
    "schedule" env.schedule_id env.label cfg.now_iso with hdoc
  set st1 := (process_schedule cfg st c env).stOf with hst1
  set c1 := (process_schedule cfg st c env).cOf with hc1
  have hst1e : st1 = (process_schedule cfg st c env).stOf := hst1
  have hcommands1 : st1.commands = ((env.device_id, cid), doc) :: st.commands := by
    rw [hst1, e1']
    simp only [StepRes.stOf]
    rw [save_history_log_commands]
  have hpub1 : st1.published = st.published ++
      [{ topic := build_device_command_topic env.device_id
         device_id := env.device_id
         command_id := cid
         action := "on"
         duration := env.duration_minutes * 60
         origin := "schedule"
         schedule_id := env.schedule_id }] := by
    rw [hst1, e1']
    simp only [StepRes.stOf]
    rw [save_history_log_published]
  have hc1e : c1 = { c with executed := c.executed + 1 } := by
    rw [hc1, e1']
    rfl
  have hlook1 : lookupList (env.device_id, cid) st1.commands = some doc := by
    rw [hcommands1]
    simp [lookupList]
  have e2 : process_schedule cfg st1 c1 env = .finished
      (save_history_log st1 env.device_id "duplicate" "schedule"
        "Duplicado (retry) no mesmo minuto." (some cid))
      { c1 with duplicates := c1.duplicates + 1 } := by
    have e2a : process_schedule cfg st1 c1 env =
        command_section cfg env st1 c1 cid (env.duration_minutes * 60) := by
      simp only [process_schedule, hdev, htgt, htel]
      rw [if_neg hm, hws]
    rw [e2a]
    simp only [command_section, hlook1, h4]
    rfl
  refine ⟨?_, ?_, ?_, ?_, ?_, ?_, ?_, ?_, ?_, ?_, ?_, ?_⟩
  · rw [e1']; rfl
  · rw [hc1e]
  · rw [hc1e]
  · rw [hcommands1, countKey_cons, if_pos rfl, hcnt]
  · exact hlook1
  · rw [hpub1]
    simp
  · rw [e2]; rfl
  · rw [e2]; rfl
  · rw [e2]; rfl
  · rw [e2]
    simp only [StepRes.stOf]
    rw [save_history_log_commands]
  · rw [e2]
    simp only [StepRes.stOf]
    rw [save_history_log_published]
  · rw [e2]
    simp only [StepRes.stOf, save_history_log]
    exact lookupList_upsert_self _ _ _

-- Pre-command steps of one schedule cannot raise: the device read succeeds
-- or cleanly reports absence, the target-moisture setting parses, and the
-- history writes that sit outside the try block (the skip paths and the
-- error-path write) do not raise.
def preStepSafe (env : SchedEnv) : Bool :=
  (match env.deviceGet with
   | .raisesDev => false
   | .missingDev => true
   | .foundDev d =>
       match d.target_soil_moisture with
       | .badNum => false
       | _ => true)
  && !env.histSkipTeleRaises && !env.histSkipMoistRaises
  && !env.histSkipWeatherRaises && !env.histErrRaises

theorem sched_error_path_no_raise (env : SchedEnv) (cid : String) (st : SchedState)
    (c : Counters) (h : env.histErrRaises = false) :
    ∃ st' c', sched_error_path env cid st c = .finished st' c' := by
  unfold sched_error_path
  rw [if_neg (by simp [h])]
  exact ⟨_, _, rfl⟩

theorem command_section_no_raise (cfg : SchedCfg) (env : SchedEnv) (st : SchedState)
    (c : Counters) (cid : String) (ds : Int) (h : env.histErrRaises = false) :
    ∃ st' c', command_section cfg env st c cid ds = .finished st' c' := by
  unfold command_section
  rcases lookupList (env.device_id, cid) st.commands with _ | d
  · by_cases h1 : env.createRaises
    · simpa [h1] using sched_error_path_no_raise env cid st c h
    · by_cases h2 : env.publishRaises
      · simpa [h1, h2] using sched_error_path_no_raise env cid _ c h
      · by_cases h3 : env.histExecRaises
        · simpa [h1, h2, h3] using sched_error_path_no_raise env cid _ c h
        · simp only [h1, h2, h3]
          simp
  · by_cases h4 : env.histDupRaises
    · simpa [h4] using sched_error_path_no_raise env cid st _ h
    · simp only [h4]
      simp

theorem process_schedule_no_raise (cfg : SchedCfg) (st : SchedState) (c : Counters)
    (env : SchedEnv) (h : preStepSafe env = true) :
    ∃ st' c', process_schedule cfg st c env = .finished st' c' := by
  have hcomp : env.histErrRaises = false := by
    unfold preStepSafe at h
    simp only [Bool.and_eq_true, Bool.not_eq_true'] at h
    exact h.2
  simp only [process_schedule]
  rcases hdg : env.deviceGet with _ | _ | dev
  · unfold preStepSafe at h
    rw [hdg] at h
    simp at h
  · exact ⟨_, _, rfl⟩
  · have hskips : env.histSkipTeleRaises = false ∧ env.histSkipMoistRaises = false ∧
        env.histSkipWeatherRaises = false := by
      unfold preStepSafe at h
      simp only [Bool.and_eq_true, Bool.not_eq_true'] at h
      exact ⟨h.1.1.1.2, h.1.1.2, h.1.2⟩
    have htgt : ∃ tgt, pyFloatSetting dev.target_soil_moisture 100 = some tgt := by
      rcases htm : dev.target_soil_moisture with _ | q | _
      · exact ⟨100, rfl⟩
      · exact ⟨q, rfl⟩
      · unfold preStepSafe at h
        rw [hdg] at h
        simp [htm] at h
    obtain ⟨tgt, htgt⟩ := htgt
    dsimp only
    rw [htgt]
    rcases hget : get_latest_soil_moisture env.telemetryQuery cfg.nowTs
        cfg.telemetry_max_age_sec with _ | m
    · rw [hskips.1]
      simp
    · dsimp only
      by_cases hm : m ≥ tgt
      · rw [if_pos hm, hskips.2.1]
        simp
      · rw [if_neg hm]
        rcases hws : (if dev.enable_weather_control then
            (let pr := check_rain_forecast env.lat env.lon env.weatherFetch;
             if pr.1 then some pr.2 else none) else none) with _ | reason
        · exact command_section_no_raise cfg env st c _ _ hcomp
        · rw [hskips.2.2]
          simp

theorem scheduler_tick_go_no_raise (cfg : SchedCfg) (envs : List SchedEnv) :
    ∀ (st : SchedState) (c : Counters), (∀ e ∈ envs, preStepSafe e = true) →
    ∃ st' c', scheduler_tick_go cfg st c envs = .ok200 st' c' := by
  induction envs with
  | nil => exact fun st c _ => ⟨st, c, rfl⟩
  | cons e rest ih =>
      intro st c h
      obtain ⟨st1, c1, he⟩ := process_schedule_no_raise cfg st c e (h e (by simp))
      obtain ⟨st', c', hrest⟩ := ih st1 c1 (fun x hx => h x (by simp [hx]))
      refine ⟨st', c', ?_⟩
      simp only [scheduler_tick_go]
      rw [he]
      exact hrest

/-- Claim C9 (amended): exceptions raised inside the command
create/publish/execution-history step are isolated per schedule (counted as
errors, the remaining schedules still evaluated, and the tick completes with
aggregate counters); but this isolation only holds when the steps outside the
per-schedule try block - the device read, the target-moisture parse, the
skip-path history writes and the error-path history write - do not raise. -/
theorem C9_amended_command_step_isolation (cfg : SchedCfg) (st : SchedState) (envs : List SchedEnv)
    (h : ∀ e ∈ envs, preStepSafe e = true) :
    (scheduler_lambda_handler cfg st envs).completed = true := by
  obtain ⟨st', c', he⟩ := scheduler_tick_go_no_raise cfg envs st {} h
  unfold scheduler_lambda_handler
  rw [he]
  rfl

def c9Cfg : SchedCfg :=
  { nowTs := 150, now_minute_key := "202501010600", now_iso := "2025-01-01T06:00:00" }

def c9BadEnv : SchedEnv :=
  { schedule_id := "s-bad", label := "Bad", duration_minutes := 5,
    device_id := "devA", deviceGet := .raisesDev }

def c9GoodEnv : SchedEnv :=
  { schedule_id := "s-good", label := "Good", duration_minutes := 5,
    device_id := "devB",
    deviceGet := .foundDev { target_soil_moisture := .numVal 60,
                             enable_weather_control := false },
    telemetryQuery := .qitems [{ ts := .intVal 100, soil := .numVal 40 }] }

/-- Claim C9 counterexample: a tick with two matched schedules where the first
schedule's device read raises aborts the whole evaluation (HTTP 500, no
aggregate counters) and the second schedule - which on its own would complete -
is never evaluated, refuting the claim that an exception in any step of one
schedule's processing cannot prevent evaluation of the remaining schedules. -/
theorem C9_counterexample :
    scheduler_lambda_handler c9Cfg emptySchedState [c9BadEnv, c9GoodEnv] =
      .err500 emptySchedState ∧
    (scheduler_lambda_handler c9Cfg emptySchedState [c9GoodEnv]).completed = true ∧
    (scheduler_lambda_handler c9Cfg emptySchedState [c9BadEnv, c9GoodEnv]).completed = false := by
  refine ⟨rfl, rfl, rfl⟩

def c9PubFailEnv : SchedEnv :=
  { schedule_id := "s-pf", label := "PF", duration_minutes := 5,
    device_id := "devC",
    deviceGet := .foundDev { target_soil_moisture := .numVal 60,
                             enable_weather_control := false },
    telemetryQuery := .qitems [{ ts := .intVal 100, soil := .numVal 40 }],
    publishRaises := true }

theorem C9_amended_command_step_isolation_witness :
    (scheduler_lambda_handler c9Cfg emptySchedState [c9PubFailEnv, c9GoodEnv]).completed = true :=
  C9_amended_command_step_isolation c9Cfg emptySchedState [c9PubFailEnv, c9GoodEnv] (by decide)

/-- Claim C10: when the command record already exists, the manual SendCommand
handler returns the idempotent no-op response (no re-publish) exactly when the
stored status is anything other than "publish_failed"; if the stored status is
"publish_failed" it publishes the downlink again for the same command
identifier; and a validated request with action "off" has its duration forced
to 0 regardless of the duration supplied. -/
theorem C10_publish_failed_retry_and_off_duration
    (st : SCState) (env : SCEnv) (body : SCBody) (ik uid_o : Option String)
    (payload : SCPayload) (doc : ManCmdDoc) (uid : String)
    (hval : validate_and_build_command body ik uid_o env.fresh_uuid = .ok payload)
    (huser : payload.user_id = some uid)
    (hown : env.ownershipOk = true)
    (hexist : lookupList (payload.device_id, payload.command_id) st.commands = some doc)
    (hstrip : pyStrip doc.status = doc.status) (hlow : pyLower doc.status = doc.status) :
    (doc.status ≠ "publish_failed" →
       send_command_lambda_handler st env body ik uid_o =
         (st, { statusCode := 200, message := idempotentMsg })) ∧
    (doc.status = "publish_failed" → env.publishRaises = false →
       send_command_lambda_handler st env body ik uid_o =
         ({ st with published := st.published ++ [payload] },
          { statusCode := 200, message := "Comando enviado com sucesso" })) ∧
    (∀ (b2 : SCBody) (ik2 u2 : Option String) (f2 : String) (p2 : SCPayload),
       validate_and_build_command b2 ik2 u2 f2 = .ok p2 → p2.action = "off" →
       p2.duration = 0) := by
  have hkey : pyLower ((some (pyLower (pyStrip doc.status))).getD "") = doc.status := by
    simp only [Option.getD_some]
    rw [hstrip, hlow, hlow]
  refine ⟨?_, ?_, ?_⟩
  · intro hne
    simp only [send_command_lambda_handler, hval]
    rw [if_neg (by simp [huser]), if_neg (by simp [huser]),
        if_neg (by simp [huser, hown])]
    simp only [firestore_create_or_get_command, hexist]
    rw [hkey]
    simp [hne]
  · intro heq hpr
    simp only [send_command_lambda_handler, hval]
    rw [if_neg (by simp [huser]), if_neg (by simp [huser]),
        if_neg (by simp [huser, hown])]
    simp only [firestore_create_or_get_command, hexist]
    rw [hkey, heq]
    simp [hpr]
  · intro b2 ik2 u2 f2 p2 hv hoff
    unfold validate_and_build_command at hv
    repeat' split at hv
    all_goals (try cases hv)
    all_goals (try simp_all)
    all_goals (split_ifs at hv)
    all_goals (try cases hv)
    all_goals simp_all

def c1Cfg : SchedCfg :=
  { nowTs := 150, now_minute_key := "202506110600", now_iso := "2025-06-11T06:00:00" }

def c1Env : SchedEnv :=
  { schedule_id := "s-w", label := "Morning", duration_minutes := 5, device_id := "devW",
    deviceGet := .foundDev { target_soil_moisture := .numVal 60,
                             enable_weather_control := false },
    telemetryQuery := .qitems [{ ts := .intVal 100, soil := .numVal 40 }] }

theorem C1_create_once_dedup_witness :
    (process_schedule c1Cfg emptySchedState {} c1Env).isFinished = true ∧
    countKey (process_schedule c1Cfg emptySchedState {} c1Env).stOf.commands
      ("devW", build_command_id "s-w" "202506110600") = 1 ∧
    (process_schedule c1Cfg (process_schedule c1Cfg emptySchedState {} c1Env).stOf
        (process_schedule c1Cfg emptySchedState {} c1Env).cOf c1Env).stOf.published =
      (process_schedule c1Cfg emptySchedState {} c1Env).stOf.published ∧
    (process_schedule c1Cfg (process_schedule c1Cfg emptySchedState {} c1Env).stOf
        (process_schedule c1Cfg emptySchedState {} c1Env).cOf c1Env).cOf.duplicates =
      (process_schedule c1Cfg emptySchedState {} c1Env).cOf.duplicates + 1 := by
  have h := C1_create_once_dedup c1Cfg emptySchedState {} c1Env
    { target_soil_moisture := .numVal 60, enable_weather_control := false } 60 40
    (build_command_id "s-w" "202506110600") rfl rfl rfl rfl (by decide) (fun _ => rfl)
    rfl rfl rfl rfl rfl rfl
  exact ⟨h.1, h.2.2.2.1, h.2.2.2.2.2.2.2.2.2.2.1, h.2.2.2.2.2.2.2.1⟩

def c2WCfg : SchedCfg :=
  { nowTs := 400, now_minute_key := "202506110600", now_iso := "2025-06-11T06:00:00" }

def c2WEnv : SchedEnv :=
  { schedule_id := "s-stale", label := "Stale", duration_minutes := 5, device_id := "devS",
    deviceGet := .foundDev { target_soil_moisture := .numVal 60,
                             enable_weather_control := false },
    telemetryQuery := .qitems [{ ts := .intVal 100, soil := .numVal 40 }] }

theorem C2_telemetry_fail_closed_witness :
    get_latest_soil_moisture (.qitems [{ ts := .intVal 100, soil := .numVal 40 }]) 400 180 =
      none ∧
    process_schedule c2WCfg emptySchedState {} c2WEnv =
      .finished
        { emptySchedState with history := emptySchedState.history ++
            [(("devS", (none : Option String)),
              { htype := "skipped", source := "schedule",
                message := teleSkipMsg, commandId := none })] }
        { ({} : Counters) with skipped := ({} : Counters).skipped + 1 } := by
  refine ⟨C2_telemetry_fail_closed.2.2.2.2.1 400 180 100 40 [] (by decide), ?_⟩
  exact C2_telemetry_fail_closed.2.2.2.2.2 c2WCfg emptySchedState {} c2WEnv
    { target_soil_moisture := .numVal 60, enable_weather_control := false } 60
    rfl rfl rfl rfl

theorem C3_ack_result_computation_witness :
    errTruthy (some "boom") = true ∧
    status_to_result "done" (some true) (some "boom") = "failed" :=
  ⟨by decide, C3_ack_result_computation.1 "done" (some true) (some "boom") (by decide)⟩

theorem C4_reason_timeout_rewrite_witness :
    normalize_reason_logic (some "timeout") "done" "success" (some "on") (some 120) =
      (some "duration_elapsed", some "timeout") := by
  rw [C4_reason_timeout_rewrite.1 "timeout" "done" "success" (some "on") (some 120) (by decide)]
  decide

def c5Ack : Ack := { device_id := "dev5", command_id := "c5", status := "done",
                     ok := some true }

theorem C5_ack_history_idempotent_witness :
    countKey ((lambda_handler_ack (lambda_handler_ack emptyAckState c5Ack).1 c5Ack).1).history
      (pyStrip c5Ack.device_id, "cmd-" ++ pyStrip c5Ack.command_id) = 1 :=
  C5_ack_history_idempotent emptyAckState c5Ack (by decide) (by decide) (by decide) (by decide)

theorem C8_weather_fail_open_witness :
    check_rain_forecast 1 2 (.wok { probs := [PVal.pbad] }) = (false, weatherFailMsg) ∧
    check_rain_forecast_legacy 1 2 none = (false, "Erro API Meteorológica") :=
  ⟨C8_weather_fail_open.2.1 1 2 { probs := [PVal.pbad] } (by decide),
   C8_weather_fail_open.2.2.2 1 2 (by decide) (by decide)⟩

def c10Doc : ManCmdDoc := { device_id := "dev1", command_id := "fix-1", status := "pending" }

def c10State : SCState := { commands := [(("dev1", "fix-1"), c10Doc)], published := [] }

def c10Env : SCEnv := { ownershipOk := true, fresh_uuid := "fix-1" }

def c10Body : SCBody := { device_id := some "dev1", action := some "on",
                          duration := .pyNumVal 60 }

def c10Payload : SCPayload := { device_id := "dev1", action := "on", duration := 60,
                                origin := "manual", command_id := "fix-1",
                                user_id := some "user1" }

def c10OffBody : SCBody := { device_id := some "d2", action := some "off",
                             duration := .pyNumVal 55 }

def c10OffPayload : SCPayload := { device_id := "d2", action := "off", duration := 0,
                                   origin := "manual", command_id := "u-1",
                                   user_id := none }

theorem C10_publish_failed_retry_and_off_duration_witness :
    send_command_lambda_handler c10State c10Env c10Body none (some "user1") =
      (c10State, { statusCode := 200, message := idempotentMsg }) ∧
    c10OffPayload.duration = 0 := by
  have h := C10_publish_failed_retry_and_off_duration c10State c10Env c10Body none (some "user1") c10Payload c10Doc "user1"
    rfl rfl rfl rfl rfl rfl
  refine ⟨h.1 (by decide), ?_⟩
  exact h.2.2 c10OffBody none none "u-1" c10OffPayload rfl rfl
